import Mathlib

/-!
# Verification of the at-superapp options API

Shallow embedding of the two Python source files `src/api/index.py` and
`src/api/stock-options.py`.  Python scalar values that can appear in a
provider dataframe cell are modelled by `RawValue`; values emitted in the
JSON response are modelled by `CleanedValue`.  Machine floats are modelled
as exact rationals plus explicit non-finite constructors (`PyFloat`); the
code under verification performs no float arithmetic, only classification
and casts, so this is faithful.  Fallible Python code (expressions that can
raise) is modelled with `Except Unit`.
-/

set_option autoImplicit false

/-- A Python float value: a finite number (exact), or one of the
non-finite IEEE values `nan`, `inf`, `-inf`. -/
inductive PyFloat where
  | finite (q : ℚ)
  | nan
  | inf
  | ninf
  deriving DecidableEq, Repr

/-- A scalar value appearing in a provider dataframe cell or dict:
`none` is Python `None`, `na` is the pandas missing sentinel (`pd.NA` /
`NaT`), `nan`/`inf`/`ninf` are the non-finite Python floats, `int` and
`float` are finite Python numbers, `bool`, `str` are as in Python, and
`ts` is a pandas `Timestamp` (epoch seconds). -/
inductive RawValue where
  | none
  | na
  | nan
  | inf
  | ninf
  | int (n : ℤ)
  | float (q : ℚ)
  | bool (b : Bool)
  | str (s : String)
  | ts (sec : ℤ)
  deriving DecidableEq, Repr

/-- A value of a field in an emitted (JSON-safe) record. -/
inductive CleanedValue where
  | none
  | str (s : String)
  | bool (b : Bool)
  | int (n : ℤ)
  | float (f : PyFloat)
  deriving DecidableEq, Repr

/-- `pd.isna` on a scalar: true exactly for `None`, the pandas NA
sentinels, and float NaN. -/
def pdIsNA : RawValue → Bool
  | .none => true
  | .na => true
  | .nan => true
  | _ => false

/-- `pd.notna` on a scalar. -/
def pdNotNA (v : RawValue) : Bool := !(pdIsNA v)

/-- `value is None`. -/
def isNoneV : RawValue → Bool
  | .none => true
  | _ => false

/-- `isinstance(value, (int, float))`: Python ints, floats (finite or
not) and bools (a subclass of int). -/
def isPyNumber : RawValue → Bool
  | .int _ => true
  | .float _ => true
  | .bool _ => true
  | .nan => true
  | .inf => true
  | .ninf => true
  | _ => false

/-- `math.isnan(value)` for values passing the `isinstance` check. -/
def rvIsNaN : RawValue → Bool
  | .nan => true
  | _ => false

/-- `math.isinf(value)` for values passing the `isinstance` check. -/
def rvIsInf : RawValue → Bool
  | .inf => true
  | .ninf => true
  | _ => false

/-- Python truthiness `bool(value)` (total model; the sources only apply
it behind a `pd.notna` guard). -/
def pyTruthy : RawValue → Bool
  | .none => false
  | .na => false
  | .nan => true
  | .inf => true
  | .ninf => true
  | .int n => n != 0
  | .float q => q != 0
  | .bool b => b
  | .str s => s != ""
  | .ts _ => true

/-! ## String-to-number parsing (models Python `float(str)` / `int(str)`) -/

/-- Drop leading and trailing whitespace from a character list. -/
def trimWs (l : List Char) : List Char :=
  ((l.dropWhile Char.isWhitespace).reverse.dropWhile Char.isWhitespace).reverse

/-- Value of one ASCII digit. -/
def chDigit (c : Char) : Option ℕ :=
  if c.isDigit then some (c.toNat - 48) else Option.none

/-- Accumulate a decimal number from digit characters; fails on the
first non-digit. -/
def digitsValAux : ℕ → List Char → Option ℕ
  | acc, [] => some acc
  | acc, c :: cs =>
    match chDigit c with
    | some d => digitsValAux (acc * 10 + d) cs
    | Option.none => Option.none

/-- A non-empty run of decimal digits, as a number. -/
def digitsVal (l : List Char) : Option ℕ :=
  if l.isEmpty then Option.none else digitsValAux 0 l

/-- Strip an optional sign character, returning the rest together with
the sign (1 or -1). -/
def splitSign : List Char → List Char × ℤ
  | '+' :: r => (r, 1)
  | '-' :: r => (r, -1)
  | r => (r, 1)

/-- Parse an optional exponent suffix `[(e|E)[+|-]digits]`.  Returns the
exponent (0 when absent) or fails. -/
def parseExpPart : List Char → Option ℤ
  | [] => some 0
  | c :: rest =>
    if c = 'e' ∨ c = 'E' then
      let (ds, sgn) := splitSign rest
      (digitsVal ds).map (fun n => sgn * (n : ℤ))
    else Option.none

/-- Parse an unsigned decimal literal `digits[.digits][exp]`, `.digits[exp]`
or `digits.[exp]`, as an exact rational.  (Underscore separators, hex
floats etc. are outside the model.) -/
def parseDec (l : List Char) : Option ℚ :=
  let ip := l.takeWhile Char.isDigit
  let rest := l.drop ip.length
  match rest with
  | '.' :: r2 =>
    let fp := r2.takeWhile Char.isDigit
    let rest2 := r2.drop fp.length
    if ip.isEmpty && fp.isEmpty then Option.none
    else
      match digitsValAux 0 (ip ++ fp), parseExpPart rest2 with
      | some m, some e =>
        let base : ℚ := (m : ℚ) / ((10 : ℚ) ^ fp.length)
        some (base * (10 : ℚ) ^ e)
      | _, _ => Option.none
  | _ =>
    match digitsVal ip, parseExpPart rest with
    | some m, some e => some ((m : ℚ) * (10 : ℚ) ^ e)
    | _, _ => Option.none

/-- Python `float(s)` on a string: strips whitespace, accepts an optional
sign, the named values `nan` / `inf` / `infinity` (case-insensitive), or a
decimal literal.  Returns `none` where Python raises `ValueError`. -/
def pyFloatOfString (s : String) : Option PyFloat :=
  let t := trimWs s.toList
  let (core, sgn) := splitSign t
  let low := core.map Char.toLower
  if low = "nan".toList then some .nan
  else if low = "inf".toList ∨ low = "infinity".toList then
    some (if sgn = 1 then .inf else .ninf)
  else (parseDec core).map (fun q => .finite ((sgn : ℚ) * q))

/-- Python `int(s)` on a string: sign and digits only; returns `none`
where Python raises `ValueError` (e.g. on `"7.5"` or `"abc"`). -/
def pyIntOfString (s : String) : Option ℤ :=
  let t := trimWs s.toList
  let (core, sgn) := splitSign t
  (digitsVal core).map (fun n => sgn * (n : ℤ))

/-! ## The coercion primitives `safe_float` and `safe_int` -/

/-- The Python builtin `float(value)`: numbers are cast (bools count as
ints), strings are parsed, everything else raises (`.error`). -/
def pyFloatCast : RawValue → Except Unit PyFloat
  | .int n => .ok (.finite (n : ℚ))
  | .float q => .ok (.finite q)
  | .bool b => .ok (.finite (if b then 1 else 0))
  | .nan => .ok .nan
  | .inf => .ok .inf
  | .ninf => .ok .ninf
  | .str s =>
    match pyFloatOfString s with
    | some f => .ok f
    | Option.none => .error ()
  | .none => .error ()
  | .na => .error ()
  | .ts _ => .error ()

/-- `safe_float` (identical in `index.py` lines 19-28 and
`stock-options.py` lines 13-22):

    if value is None: return None
    if pd.isna(value): return None
    if isinstance(value, (int, float)):
        if math.isnan(value) or math.isinf(value): return None
    return float(value)

The final `float(value)` is not guarded, so it can itself raise, and on
a string it can produce a non-finite float. -/
def safe_float (v : RawValue) : Except Unit (Option PyFloat) :=
  if isNoneV v then .ok Option.none
  else if pdIsNA v then .ok Option.none
  else if isPyNumber v && (rvIsNaN v || rvIsInf v) then .ok Option.none
  else (pyFloatCast v).map some

/-- The Python builtin `int(value)` under a `try`: truncating cast for
finite numbers, digit parsing for strings, `none` where Python raises
(`inf`, non-numeric strings, timestamps, ...). -/
def pyIntCast : RawValue → Option ℤ
  | .int n => some n
  | .bool b => some (if b then 1 else 0)
  | .float q => some (q.num.tdiv (q.den : ℤ))
  | .str s => pyIntOfString s
  | _ => Option.none

/-- `safe_int` (`stock-options.py` lines 24-31):

    if value is None or pd.isna(value): return None
    try: return int(value)
    except: return None
-/
def safe_int (v : RawValue) : Option ℤ :=
  if isNoneV v || pdIsNA v then Option.none
  else pyIntCast v

/-- Python `str(value)` (the reprs of non-dyadic finite floats are
approximated; no theorem depends on them). -/
def pyStr : RawValue → String
  | .none => "None"
  | .na => "<NA>"
  | .nan => "nan"
  | .inf => "inf"
  | .ninf => "-inf"
  | .int n => toString n
  | .float q => if q.den = 1 then toString q.num ++ ".0" else toString q
  | .bool b => if b then "True" else "False"
  | .str s => s
  | .ts sec => "Timestamp " ++ toString sec

/-! ## Calendar arithmetic (models `datetime.strptime` / `Timestamp.isoformat`) -/

/-- Gregorian leap year. -/
def isLeap (y : ℤ) : Bool := (y % 4 == 0 && y % 100 != 0) || y % 400 == 0

/-- Number of days in month `m` of year `y`. -/
def daysInMonth (y m : ℤ) : ℤ :=
  if m = 2 then (if isLeap y then 29 else 28)
  else if m = 4 ∨ m = 6 ∨ m = 9 ∨ m = 11 then 30
  else 31

/-- Days since the Unix epoch of the civil date `y-m-d`
(Howard Hinnant's `days_from_civil` algorithm). -/
def daysFromCivil (y m d : ℤ) : ℤ :=
  let y2 := if m ≤ 2 then y - 1 else y
  let era := Int.fdiv y2 400
  let yoe := y2 - era * 400
  let mp := Int.emod (m + 9) 12
  let doy := Int.fdiv (153 * mp + 2) 5 + d - 1
  let doe := yoe * 365 + Int.fdiv yoe 4 - Int.fdiv yoe 100 + doy
  era * 146097 + doe - 719468

/-- Civil date `(y, m, d)` of a count of days since the Unix epoch
(Howard Hinnant's `civil_from_days` algorithm). -/
def civilFromDays (z : ℤ) : ℤ × ℤ × ℤ :=
  let z2 := z + 719468
  let era := Int.fdiv z2 146097
  let doe := z2 - era * 146097
  let yoe := Int.fdiv (doe - Int.fdiv doe 1460 + Int.fdiv doe 36524 - Int.fdiv doe 146096) 365
  let y := yoe + era * 400
  let doy := doe - (365 * yoe + Int.fdiv yoe 4 - Int.fdiv yoe 100)
  let mp := Int.fdiv (5 * doy + 2) 153
  let d := doy - Int.fdiv (153 * mp + 2) 5 + 1
  let m := mp + (if mp < 10 then 3 else -9)
  (if m ≤ 2 then y + 1 else y, m, d)

/-- Zero-pad a (non-negative) integer to two digits. -/
def pad2 (n : ℤ) : String := if n < 10 then "0" ++ toString n else toString n

/-- ISO-8601 string of an epoch-seconds timestamp (without sub-second
precision; no theorem depends on the exact text). -/
def isoOfEpochSec (t : ℤ) : String :=
  let day := Int.fdiv t 86400
  let sec := Int.emod t 86400
  let ymd := civilFromDays day
  toString ymd.1 ++ "-" ++ pad2 ymd.2.1 ++ "-" ++ pad2 ymd.2.2 ++ "T" ++
    pad2 (Int.fdiv sec 3600) ++ ":" ++ pad2 (Int.emod (Int.fdiv sec 60) 60) ++ ":" ++
    pad2 (Int.emod sec 60)

/-- Split a character list at every occurrence of `c`. -/
def splitOnChar (c : Char) : List Char → List (List Char)
  | [] => [[]]
  | a :: as =>
    let r := splitOnChar c as
    if a = c then [] :: r
    else
      match r with
      | h :: t => (a :: h) :: t
      | [] => [[a]]

/-- `datetime.strptime(s, "%Y-%m-%d")`, returned as days since the epoch:
exactly four digits of year, one or two digits of month and day, month in
1..12 and day within the month; `none` where Python raises. -/
def strptimeYmd (s : String) : Option ℤ :=
  match splitOnChar '-' s.toList with
  | [ys, ms, ds] =>
    if ys.length = 4 ∧ (ms.length = 1 ∨ ms.length = 2) ∧ (ds.length = 1 ∨ ds.length = 2) then
      match digitsVal ys, digitsVal ms, digitsVal ds with
      | some y, some m, some d =>
        if 1 ≤ m ∧ m ≤ 12 ∧ 1 ≤ d ∧ (d : ℤ) ≤ daysInMonth (y : ℤ) (m : ℤ) then
          some (daysFromCivil (y : ℤ) (m : ℤ) (d : ℤ))
        else Option.none
      | _, _, _ => Option.none
    else Option.none
  | _ => Option.none

/-- `pd.Timestamp(value).isoformat()`: a timestamp converts directly, a
string is accepted when it is a plain `%Y-%m-%d` date (the only string
form relevant here), numbers are nanoseconds since the epoch; `none`
models a raised conversion error. -/
def pdTimestampISO : RawValue → Option String
  | .ts sec => some (isoOfEpochSec sec)
  | .str s => (strptimeYmd s).map (fun d => isoOfEpochSec (d * 86400))
  | .int n => some (isoOfEpochSec (Int.fdiv n 1000000000))
  | .float q => some (isoOfEpochSec (Int.fdiv q.num ((q.den : ℤ) * 1000000000)))
  | _ => Option.none

/-! ## Dataframes and the data-cleaning routine -/

/-- A pandas dataframe as the cleaning routine sees it: a list of column
names, and one total valuation per row (pandas stores a value — possibly
NaN — for every column of the frame in every row). -/
structure DataFrame where
  columns : List String
  rows : List (String → RawValue)

/-- `df.empty`: true when either axis has length zero. -/
def dfEmpty (df : DataFrame) : Bool := df.columns.isEmpty || df.rows.isEmpty

/-- An emitted record: keys with cleaned values, in insertion order. -/
abbrev Rec := List (String × CleanedValue)

/-- `columns_to_keep` of `stock-options.py` (lines 39-52). -/
def columns_to_keep : List String :=
  ["contractSymbol", "strike", "lastPrice", "bid", "ask", "change",
   "percentChange", "volume", "openInterest", "impliedVolatility",
   "inTheMoney", "lastTradeDate"]

/-- `columns_to_keep` of `index.py` (lines 35-38). -/
def columns_to_keep_index : List String :=
  ["contractSymbol", "strike", "lastPrice", "bid", "ask",
   "volume", "openInterest", "impliedVolatility", "inTheMoney"]

/-- `[c for c in columns_to_keep if c in df.columns]`. -/
def existingCols (keep : List String) (df : DataFrame) : List String :=
  keep.filter (fun c => df.columns.contains c)

/-- Per-field coercion of `clean_options_data` in `stock-options.py`
(lines 64-81): `contractSymbol` by `str`, `inTheMoney` by guarded `bool`,
`volume`/`openInterest` by `safe_int`, `lastTradeDate` by guarded
timestamp conversion with `str` fallback, everything else by
`safe_float`. -/
def cleanFieldStock (k : String) (v : RawValue) : Except Unit CleanedValue :=
  if k = "contractSymbol" then
    .ok (match v with | .none => .none | _ => .str (pyStr v))
  else if k = "inTheMoney" then
    .ok (.bool (if pdNotNA v then pyTruthy v else false))
  else if k = "volume" ∨ k = "openInterest" then
    .ok (match safe_int v with | some n => .int n | Option.none => .none)
  else if k = "lastTradeDate" then
    .ok (if pdNotNA v then
          (match pdTimestampISO v with
           | some s => .str s
           | Option.none => .str (pyStr v))
         else .none)
  else
    (safe_float v).map (fun o => match o with | some f => .float f | Option.none => .none)

/-- Per-field coercion of `clean_options_data` in `index.py`
(lines 48-54): `contractSymbol` by `str`, `inTheMoney` by guarded `bool`,
everything else — including `volume` and `openInterest` — by
`safe_float`. -/
def cleanFieldIndex (k : String) (v : RawValue) : Except Unit CleanedValue :=
  if k = "contractSymbol" then
    .ok (match v with | .none => .none | _ => .str (pyStr v))
  else if k = "inTheMoney" then
    .ok (.bool (if pdNotNA v then pyTruthy v else false))
  else
    (safe_float v).map (fun o => match o with | some f => .float f | Option.none => .none)

/-- Clean the fields of one record, in column order; the first raising
coercion aborts the whole routine (Python exception propagation). -/
def cleanFields (field : String → RawValue → Except Unit CleanedValue)
    (row : String → RawValue) : List String → Except Unit Rec
  | [] => .ok []
  | c :: cs =>
    match field c (row c), cleanFields field row cs with
    | .ok v, .ok r => .ok ((c, v) :: r)
    | _, _ => .error ()

/-- Clean every row of the (already column-filtered) frame, preserving
order; the `stock-options.py` variant seeds each record with the injected
`expirationDate` field. -/
def cleanRowsStock (e : String) (cols : List String) :
    List (String → RawValue) → Except Unit (List Rec)
  | [] => .ok []
  | r :: rs =>
    match cleanFields cleanFieldStock r cols, cleanRowsStock e cols rs with
    | .ok fs, .ok rest => .ok ((("expirationDate", .str e) :: fs) :: rest)
    | _, _ => .error ()

/-- Row cleaning for the `index.py` variant: no injected field. -/
def cleanRowsIndex (cols : List String) :
    List (String → RawValue) → Except Unit (List Rec)
  | [] => .ok []
  | r :: rs =>
    match cleanFields cleanFieldIndex r cols, cleanRowsIndex cols rs with
    | .ok fs, .ok rest => .ok (fs :: rest)
    | _, _ => .error ()

/-- `clean_options_data(df, expiration_date)` of `stock-options.py`
(lines 33-85). -/
def clean_options_data (df : DataFrame) (expiration_date : String) :
    Except Unit (List Rec) :=
  if dfEmpty df then .ok []
  else cleanRowsStock expiration_date (existingCols columns_to_keep df) df.rows

/-- `clean_options_data(df)` of `index.py` (lines 30-57). -/
def clean_options_data_index (df : DataFrame) : Except Unit (List Rec) :=
  if dfEmpty df then .ok []
  else cleanRowsIndex (existingCols columns_to_keep_index df) df.rows

/-! ## Expiration metadata -/

/-- `calculate_days_to_expiration` (`stock-options.py` lines 87-94), with
the current wall-clock time (epoch seconds, local naive) as `now`:

    try:
        exp_date = datetime.strptime(expiration_date_str, "%Y-%m-%d")
        days = (exp_date - datetime.now()).days
        return max(0, days)
    except:
        return None

`timedelta.days` floors the difference measured in seconds. -/
def calculate_days_to_expiration (now : ℤ) (s : String) : Option ℤ :=
  match strptimeYmd s with
  | some d => some (max 0 (Int.fdiv (d * 86400 - now) 86400))
  | Option.none => Option.none

/-- One entry of the `expiration_options` list built by the handler. -/
structure ExpOption where
  date : String
  daysToExpiration : Option ℤ
  label : String
  deriving DecidableEq, Repr

/-- The per-date body of the loop at `stock-options.py` lines 198-205. -/
def buildExpOption (now : ℤ) (s : String) : ExpOption :=
  let dte := calculate_days_to_expiration now s
  { date := s
    daysToExpiration := dte
    label :=
      match dte with
      | some n => s ++ " (" ++ toString n ++ " days)"
      | Option.none => s }

/-! ## The provider (yfinance `Ticker`) and the price-fallback chains -/

/-- The external provider as consumed by the handlers.  Each field is one
of the provider calls the code makes; `.error` models the call raising.
`info` is the quote dict (`.get` of an absent key is `none`),
`fastLastPrice` is `fast_info.get("lastPrice")`, `history` is the `Close`
column of `history(period="1d")`. -/
structure Ticker where
  options : Except Unit (List String)
  optionChain : String → Except Unit (DataFrame × DataFrame)
  info : Except Unit (String → Option RawValue)
  fastLastPrice : Except Unit (Option RawValue)
  history : Except Unit (List RawValue)

/-- Python `a or b` on optional values: `a` unless it is absent or
falsy. -/
def pyOr (a b : Option RawValue) : Option RawValue :=
  match a with
  | some v => if pyTruthy v then a else b
  | Option.none => b

/-- `info.get("currentPrice") or info.get("regularMarketPrice")`. -/
def infoOr (m : String → Option RawValue) : Option RawValue :=
  pyOr (m "currentPrice") (m "regularMarketPrice")

/-- Truthiness of a Python float (`nan` and the infinities are truthy). -/
def pyFloatTruthy : PyFloat → Bool
  | .finite q => q != 0
  | _ => true

/-- `safe_float(current_price)` where `current_price` may be `None`. -/
def safeFloatOpt : Option RawValue → Except Unit (Option PyFloat)
  | some v => safe_float v
  | Option.none => .ok Option.none

/-- `safe_float(current_price) or 0`: a `None` or falsy resolved price
becomes the default `0`. -/
def priceOrZero (o : Option PyFloat) : PyFloat :=
  match o with
  | some f => if pyFloatTruthy f then f else .finite 0
  | Option.none => .finite 0

/-- The three-step price-fallback chain of `index.py` (lines 94-115):
primary/regular-market quote from `info`, then `fast_info["lastPrice"]`,
then the last close of one day of history; each step is tried only while
the running value `is None`, each step's fault is swallowed, and the
result is passed through `safe_float(...) or 0`. -/
def resolvePriceIndex (t : Ticker) : Except Unit PyFloat :=
  let cp0 : Option RawValue :=
    match t.info with
    | .ok m => infoOr m
    | .error _ => Option.none
  let cp1 : Option RawValue :=
    match cp0 with
    | some v => some v
    | Option.none =>
      match t.fastLastPrice with
      | .ok r => r
      | .error _ => Option.none
  let cp2 : Option RawValue :=
    match cp1 with
    | some v => some v
    | Option.none =>
      match t.history with
      | .ok closes => closes.getLast?
      | .error _ => Option.none
  (safeFloatOpt cp2).map priceOrZero

/-- The two-step price-fallback chain of `stock-options.py`
(lines 180-195): the same as `resolvePriceIndex` but with **no**
`fast_info` step — `info`, then one-day history, then `or 0`. -/
def resolvePriceStock (t : Ticker) : Except Unit PyFloat :=
  let cp0 : Option RawValue :=
    match t.info with
    | .ok m => infoOr m
    | .error _ => Option.none
  let cp2 : Option RawValue :=
    match cp0 with
    | some v => some v
    | Option.none =>
      match t.history with
      | .ok closes => closes.getLast?
      | .error _ => Option.none
  (safeFloatOpt cp2).map priceOrZero

/-! ## The request handler (`stock-options.py` `handler.do_GET`) -/

/-- Whether `pattern` occurs inside `text` (Python `pattern in text`). -/
def listHasInfix (text pattern : List Char) : Bool :=
  match text with
  | [] => pattern.isEmpty
  | _ :: ts => pattern.isPrefixOf text || listHasInfix ts pattern

/-- `handler.is_authorized` (`stock-options.py` lines 111-129): always
true when the configured origin contains `localhost`; otherwise the
`Origin` or `Referer` header must be present, non-empty and start with
the configured origin. -/
def is_authorized (allowed : String) (origin referer : Option String) : Bool :=
  if listHasInfix allowed.toList "localhost".toList then true
  else
    (match origin with
     | some o => o != "" && allowed.isPrefixOf o
     | Option.none => false) ||
    (match referer with
     | some r => r != "" && allowed.isPrefixOf r
     | Option.none => false)

/-- Line 168: `expiration if expiration in all_expirations else
all_expirations[0]` (the expiration list is non-empty at this point, so
the `headD` default is never used). -/
def selectTarget (expiration : Option String) (exps : List String) : String :=
  match expiration with
  | some e => if exps.contains e then e else exps.headD ""
  | Option.none => exps.headD ""

/-- The JSON body of a 200 response (`stock-options.py` lines 208-216). -/
structure Payload where
  symbol : String
  currentPrice : PyFloat
  selectedExpiration : String
  expirationOptions : List ExpOption
  calls : List Rec
  puts : List Rec
  timestamp : String

/-- A response body: an error object or a success payload. -/
inductive ResponseBody where
  | err (msg : String)
  | payload (p : Payload)

/-- An HTTP response: status code and JSON body. -/
structure HttpResponse where
  status : ℕ
  body : ResponseBody

/-- `handler.do_GET` (`stock-options.py` lines 131-224).  Query-string
parsing (`parse_qs`) is abstracted into `params`, which returns the first
value of a parameter or `none` when it is absent or blank; `now` is the
wall-clock time in epoch seconds.  The catch-all 500 branch carries the
exception text, modelled by a fixed message. -/
def do_GET (allowed : String) (origin referer : Option String)
    (params : String → Option String) (t : Ticker) (now : ℤ) : HttpResponse :=
  if !is_authorized allowed origin referer then
    ⟨403, .err "Forbidden: Access denied from this origin."⟩
  else
    match params "symbol" with
    | Option.none => ⟨400, .err "Missing symbol parameter"⟩
    | some s0 =>
      if s0 = "" then ⟨400, .err "Missing symbol parameter"⟩
      else
        let symbol := s0.toUpper.trim
        match t.options with
        | .error _ => ⟨500, .err "Internal server error"⟩
        | .ok exps =>
          if exps.isEmpty then
            ⟨404, .err ("No options data available for " ++ symbol)⟩
          else
            let target := selectTarget (params "expiration") exps
            match t.optionChain target with
            | .error _ => ⟨500, .err "Internal server error"⟩
            | .ok chain =>
              if dfEmpty chain.1 && dfEmpty chain.2 then
                ⟨404, .err ("No options contracts found for " ++ symbol)⟩
              else
                match resolvePriceStock t with
                | .error _ => ⟨500, .err "Internal server error"⟩
                | .ok price =>
                  match clean_options_data chain.1 target,
                        clean_options_data chain.2 target with
                  | .ok calls, .ok puts =>
                    ⟨200, .payload
                      { symbol := symbol
                        currentPrice := price
                        selectedExpiration := target
                        expirationOptions := exps.map (buildExpOption now)
                        calls := calls
                        puts := puts
                        timestamp := isoOfEpochSec now }⟩
                  | _, _ => ⟨500, .err "Internal server error"⟩

/-! ## Shared lemmas about the cleaning routine -/

/-- A successful field-cleaning pass emits exactly the processed columns,
in order, as the record's keys. -/
theorem cleanFields_keys (field : String → RawValue → Except Unit CleanedValue)
    (row : String → RawValue) :
    ∀ (cols : List String) (l : Rec),
      cleanFields field row cols = .ok l → l.map Prod.fst = cols := by
  intro cols
  induction cols with
  | nil =>
    intro l h
    simp only [cleanFields] at h
    cases h
    rfl
  | cons c cs ih =>
    intro l h
    simp only [cleanFields] at h
    cases hf : field c (row c) with
    | error e => rw [hf] at h; cases h
    | ok v =>
      rw [hf] at h
      cases hr : cleanFields field row cs with
      | error e => rw [hr] at h; cases h
      | ok r =>
        rw [hr] at h
        cases h
        simpa using ih r hr

/-- Every binding of a successfully cleaned record comes from the field
coercion applied to that row's value at that key. -/
theorem cleanFields_mem (field : String → RawValue → Except Unit CleanedValue)
    (row : String → RawValue) :
    ∀ (cols : List String) (l : Rec) (k : String) (v : CleanedValue),
      cleanFields field row cols = .ok l → (k, v) ∈ l → field k (row k) = .ok v := by
  intro cols
  induction cols with
  | nil =>
    intro l k v h hm
    simp only [cleanFields] at h
    cases h
    simp at hm
  | cons c cs ih =>
    intro l k v h hm
    simp only [cleanFields] at h
    cases hf : field c (row c) with
    | error e => rw [hf] at h; cases h
    | ok w =>
      rw [hf] at h
      cases hr : cleanFields field row cs with
      | error e => rw [hr] at h; cases h
      | ok r =>
        rw [hr] at h
        cases h
        rcases List.mem_cons.mp hm with h1 | h2
        · cases h1
          exact hf
        · exact ih r k v hr h2

/-- A successful run of the per-row loop of the `stock-options.py`
cleaning routine produces one record per row, in order, each the injected
expiration binding followed by the cleaned fields of that same row. -/
theorem cleanRowsStock_ok (e : String) (cols : List String) :
    ∀ (rows : List (String → RawValue)) (out : List Rec),
      cleanRowsStock e cols rows = .ok out →
      out.length = rows.length ∧
      ∀ (i : ℕ) (rec : Rec) (row : String → RawValue),
        out[i]? = some rec → rows[i]? = some row →
        ∃ fs, cleanFields cleanFieldStock row cols = .ok fs ∧
          rec = ("expirationDate", .str e) :: fs := by
  intro rows
  induction rows with
  | nil =>
    intro out h
    simp only [cleanRowsStock] at h
    cases h
    exact ⟨rfl, by intro i rec row h1 _; simp at h1⟩
  | cons r rs ih =>
    intro out h
    simp only [cleanRowsStock] at h
    cases hf : cleanFields cleanFieldStock r cols with
    | error e2 => rw [hf] at h; cases h
    | ok fs =>
      rw [hf] at h
      cases hr : cleanRowsStock e cols rs with
      | error e2 => rw [hr] at h; cases h
      | ok rest =>
        rw [hr] at h
        cases h
        refine ⟨by simpa using (ih rest hr).1, ?_⟩
        intro i rec row h1 h2
        cases i with
        | zero =>
          simp only [List.getElem?_cons_zero, Option.some.injEq] at h1 h2
          subst h1 h2
          exact ⟨fs, hf, rfl⟩
        | succ n =>
          simp only [List.getElem?_cons_succ] at h1 h2
          exact (ih rest hr).2 n rec row h1 h2

/-! ## Claim C1 -/

/-- Claim C1 is false as stated: its consequence clause says no value
passing through `safe_float` is ever emitted as NaN or ±Infinity, but the
string `"nan"` reaches the unguarded `float(value)` cast (it is neither
`None`, nor `pd.isna`, nor a Python number), and `float("nan")` is NaN —
which `safe_float` returns. -/
theorem C1_counterexample :
    safe_float (RawValue.str "nan") = .ok (some PyFloat.nan) := rfl

/-- Claim C1 (amended): `safe_float` returns the value cast to float for
finite numeric inputs (`int` and finite `float`), and returns null for
null, the missing/NA sentinel, NaN, +Infinity and -Infinity; a float
field whose *source value is a number or a null/NA sentinel* is never
emitted as NaN or ±Infinity (the guarantee does not extend to string
inputs, per the counterexample). -/
theorem C1_safe_float_spec (v : RawValue) :
    (∀ n : ℤ, v = .int n → safe_float v = .ok (some (.finite (n : ℚ)))) ∧
    (∀ q : ℚ, v = .float q → safe_float v = .ok (some (.finite q))) ∧
    (v = .none ∨ v = .na ∨ v = .nan ∨ v = .inf ∨ v = .ninf →
      safe_float v = .ok Option.none) ∧
    ((isPyNumber v || pdIsNA v) = true →
      ∀ f, safe_float v = .ok (some f) → ∃ q : ℚ, f = .finite q) := by
  refine ⟨fun n h => by subst h; rfl, fun q h => by subst h; rfl, ?_, ?_⟩
  · rintro (h | h | h | h | h) <;> subst h <;> rfl
  · intro hnum f h
    cases v <;>
      simp_all [safe_float, isNoneV, pdIsNA, isPyNumber, rvIsNaN, rvIsInf,
        pyFloatCast, Except.map] <;>
      exact ⟨_, h.symm⟩

/-- Witness for C1: the finite input `7/2` is passed through as the
float `7/2`. -/
theorem C1_witness :
    safe_float (RawValue.float (7 / 2)) = .ok (some (.finite (7 / 2))) :=
  (C1_safe_float_spec (RawValue.float (7 / 2))).2.1 (7 / 2) rfl

/-! ## Claim C3 -/

/-- Claim C3 names a real policy the code fails to implement: a row whose
`strike` cell holds the non-numeric string `"abc"` makes `safe_float`
call `float("abc")`, which raises `ValueError` with no `try` around it,
and the fault propagates out of `clean_options_data` (surfacing as a 500).
This evaluates the embedded routine at that failing input. -/
theorem C3_code_bug_eval :
    clean_options_data ⟨["strike"], [fun _ => RawValue.str "abc"]⟩ "2024-01-19" =
      .error () := rfl

/-! ## Claim C2 -/

/-- Claim C2 is false as stated on one family of tables: a pandas frame
with rows but **zero columns** counts as empty (`df.empty` is true when
either axis has length 0), so the routine returns no records at all
instead of one record (with just the injected expiration field) per row.
Here a one-row, zero-column table yields an empty output. -/
theorem C2_counterexample :
    clean_options_data ⟨[], [fun _ => RawValue.none]⟩ "2024-01-19" = .ok [] ∧
    (DataFrame.mk [] [fun _ => RawValue.none]).rows.length = 1 :=
  ⟨rfl, rfl⟩

/-- Claim C2 (amended): for every input table *with at least one column*
(a zero-column table is treated as empty by the pandas empty check and
yields empty output), a successful run of the cleaning routine returns
one output record per input row in the same order (empty output for
empty input), and each record's keys are exactly the injected
`expirationDate` field followed by the allow-listed canonical columns
present in the table — an absent canonical column is omitted entirely,
not emitted as null. -/
theorem C2_clean_shape (df : DataFrame) (e : String) (out : List Rec)
    (hc : df.columns ≠ [])
    (h : clean_options_data df e = .ok out) :
    out.length = df.rows.length ∧
    ∀ (i : ℕ) (rec : Rec) (row : String → RawValue),
      out[i]? = some rec → df.rows[i]? = some row →
      rec.map Prod.fst =
        "expirationDate" :: columns_to_keep.filter (fun c => df.columns.contains c) ∧
      ∃ fs, cleanFields cleanFieldStock row (existingCols columns_to_keep df) = .ok fs ∧
        rec = ("expirationDate", .str e) :: fs := by
  unfold clean_options_data at h
  split at h
  · rename_i hemp
    have hrows : df.rows = [] := by
      rcases Bool.or_eq_true_iff.mp hemp with h1 | h1
      · exact absurd (List.isEmpty_iff.mp h1) hc
      · exact List.isEmpty_iff.mp h1
    cases h
    refine ⟨by simp [hrows], ?_⟩
    intro i rec row h1 _
    simp at h1
  · obtain ⟨hlen, hcorr⟩ := cleanRowsStock_ok e _ df.rows out h
    refine ⟨hlen, ?_⟩
    intro i rec row h1 h2
    obtain ⟨fs, hf, hrec⟩ := hcorr i rec row h1 h2
    subst hrec
    refine ⟨?_, fs, hf, rfl⟩
    have hk := cleanFields_keys cleanFieldStock row _ fs hf
    simp only [List.map_cons, hk]
    rfl

/-- Witness for C2: a two-row table whose columns are `strike` and the
non-canonical `bogus` yields exactly two records. -/
theorem C2_witness :
    ([[("expirationDate", CleanedValue.str "2024-01-19"),
       ("strike", CleanedValue.float (PyFloat.finite 5))],
      [("expirationDate", CleanedValue.str "2024-01-19"),
       ("strike", CleanedValue.none)]] : List Rec).length =
      (DataFrame.mk ["strike", "bogus"]
        [fun _ => RawValue.float 5, fun _ => RawValue.nan]).rows.length :=
  (C2_clean_shape
    ⟨["strike", "bogus"], [fun _ => RawValue.float 5, fun _ => RawValue.nan]⟩
    "2024-01-19" _ (by decide) rfl).1

/-! ## Claim C4 -/

/-- The `inTheMoney` branch of the per-field coercion. -/
theorem cleanFieldStock_itm (x : RawValue) :
    cleanFieldStock "inTheMoney" x =
      .ok (.bool (if pdNotNA x then pyTruthy x else false)) := rfl

/-- Claim C4: in every record emitted by the cleaning routine that
carries the `inTheMoney` field, the value is a concrete boolean — the
Python truthiness of the source value when it is present (`pd.notna`),
and boolean `false` when it is missing — never null. -/
theorem C4_inTheMoney_boolean (df : DataFrame) (e : String) (out : List Rec)
    (i : ℕ) (rec : Rec) (row : String → RawValue) (v : CleanedValue)
    (h : clean_options_data df e = .ok out)
    (h1 : out[i]? = some rec) (h2 : df.rows[i]? = some row)
    (hm : ("inTheMoney", v) ∈ rec) :
    v = .bool (if pdNotNA (row "inTheMoney") then pyTruthy (row "inTheMoney")
               else false) := by
  unfold clean_options_data at h
  split at h
  · cases h; simp at h1
  · obtain ⟨-, hcorr⟩ := cleanRowsStock_ok e _ df.rows out h
    obtain ⟨fs, hf, hrec⟩ := hcorr i rec row h1 h2
    subst hrec
    rcases List.mem_cons.mp hm with hh | hh
    · injection hh with hk hv
      exact absurd hk (by decide)
    · have hfield := cleanFields_mem cleanFieldStock row _ fs _ _ hf hh
      rw [cleanFieldStock_itm] at hfield
      cases hfield
      rfl

/-- Witness for C4: a present boolean source value `True` is emitted as
the boolean `true`. -/
theorem C4_witness :
    CleanedValue.bool true =
      .bool (if pdNotNA ((fun k => if k = "inTheMoney" then RawValue.bool true
                                   else RawValue.none) "inTheMoney")
             then pyTruthy ((fun k => if k = "inTheMoney" then RawValue.bool true
                                      else RawValue.none) "inTheMoney")
             else false) :=
  C4_inTheMoney_boolean
    ⟨["inTheMoney"], [fun k => if k = "inTheMoney" then RawValue.bool true
                               else RawValue.none]⟩
    "2024-01-19"
    [[("expirationDate", .str "2024-01-19"), ("inTheMoney", .bool true)]]
    0
    [("expirationDate", .str "2024-01-19"), ("inTheMoney", .bool true)]
    (fun k => if k = "inTheMoney" then RawValue.bool true else RawValue.none)
    (.bool true)
    rfl rfl rfl (by decide)

/-! ## Claim C5 -/

/-- Claim C5: the handler uses the caller-supplied `expiration` exactly
when it is a member of the discovered expiration list, and otherwise
falls back to the first discovered entry (also when no `expiration` was
supplied); and the `selectedExpiration` of every 200 response is the
value so selected. -/
theorem C5_expiration_selection (allowed : String) (origin referer : Option String)
    (params : String → Option String) (t : Ticker) (now : ℤ)
    (exps : List String) (e : String)
    (hopt : t.options = .ok exps) :
    (exps.contains e = true → selectTarget (some e) exps = e) ∧
    (exps.contains e = false → selectTarget (some e) exps = exps.headD "") ∧
    (selectTarget Option.none exps = exps.headD "") ∧
    (∀ p, do_GET allowed origin referer params t now = ⟨200, .payload p⟩ →
      p.selectedExpiration = selectTarget (params "expiration") exps) := by
  refine ⟨fun h => by simp only [selectTarget]; rw [h]; simp,
    fun h => by simp only [selectTarget]; rw [h]; simp, rfl, ?_⟩
  intro p hp
  simp only [do_GET] at hp
  repeat' split at hp
  all_goals try simp at hp
  subst hp
  simp only [hopt, Except.ok.injEq] at *
  simp_all

/-- Witness for C5: with discovered list `["2024-01-19", "2024-02-16"]`, a
supplied member `"2024-02-16"` is selected. -/
theorem C5_witness :
    selectTarget (some "2024-02-16") ["2024-01-19", "2024-02-16"] = "2024-02-16" :=
  (C5_expiration_selection "http://localhost:3000" Option.none Option.none
    (fun _ => Option.none)
    ⟨.ok ["2024-01-19", "2024-02-16"], fun _ => .error (), .error (), .error (),
     .error ()⟩
    0 ["2024-01-19", "2024-02-16"] "2024-02-16" rfl).1 (by decide)

/-! ## Claim C6 -/

/-- Claim C6 is false as stated for the `stock-options.py` handler: its
price-resolution code has only two lookups (`info` quote and one-day
history) — no fast-quote step.  With a provider whose `info` call raises,
whose fast quote returns `5`, and whose history is empty, the three-step
chain of `index.py` resolves `5` while the `stock-options.py` chain
ignores the successful fast quote and falls back to the default `0`. -/
theorem C6_counterexample :
    resolvePriceStock
      ⟨.error (), fun _ => .error (), .error (), .ok (some (.int 5)), .ok []⟩ =
      .ok (.finite 0) ∧
    resolvePriceIndex
      ⟨.error (), fun _ => .error (), .error (), .ok (some (.int 5)), .ok []⟩ =
      .ok (.finite 5) :=
  ⟨rfl, rfl⟩

/-- Claim C6 (amended): the `index.py` handler attempts three price
lookups in order (primary/regular-market quote, fast quote, last daily
close), short-circuiting and swallowing per-step faults, with default 0;
the `stock-options.py` handler attempts only the first and third of
these — its result never depends on the fast-quote field — with the same
fault-swallowing and default 0.  Each step, when it is the first to
succeed, determines the resolved price: the `info` quote for both chains,
the fast quote for `index.py` only, and the last daily close for both
chains when the earlier lookups fail or come back absent. -/
theorem C6_price_chain (t : Ticker) (f : Except Unit (Option RawValue))
    (m : String → Option RawValue) (hs : List RawValue) (q : ℚ) :
    resolvePriceStock { t with fastLastPrice := f } = resolvePriceStock t ∧
    (t.info = .error () → t.fastLastPrice = .error () → t.history = .error () →
      resolvePriceIndex t = .ok (.finite 0) ∧ resolvePriceStock t = .ok (.finite 0)) ∧
    (t.info = .ok m → infoOr m = some (.float q) → q ≠ 0 →
      resolvePriceIndex t = .ok (.finite q) ∧ resolvePriceStock t = .ok (.finite q)) ∧
    (t.info = .error () → t.fastLastPrice = .ok (some (.float q)) → q ≠ 0 →
      resolvePriceIndex t = .ok (.finite q)) ∧
    (t.info = .error () →
      (t.fastLastPrice = .error () ∨ t.fastLastPrice = .ok Option.none) →
      t.history = .ok hs → hs.getLast? = some (.float q) → q ≠ 0 →
      resolvePriceIndex t = .ok (.finite q)) ∧
    (t.info = .error () → t.history = .ok hs → hs.getLast? = some (.float q) →
      q ≠ 0 → resolvePriceStock t = .ok (.finite q)) ∧
    (t.info = .error () → t.history = .ok [] →
      resolvePriceStock t = .ok (.finite 0)) := by
  refine ⟨rfl, ?_, ?_, ?_, ?_, ?_, ?_⟩
  · intro h1 h2 h3
    constructor <;>
      simp [resolvePriceIndex, resolvePriceStock, h1, h2, h3, safeFloatOpt,
        priceOrZero, Except.map]
  · intro h1 h2 hq
    constructor <;>
      simp [resolvePriceIndex, resolvePriceStock, h1, h2, safeFloatOpt,
        safe_float, isNoneV, pdIsNA, isPyNumber, rvIsNaN, rvIsInf, pyFloatCast,
        Except.map, priceOrZero, pyFloatTruthy, hq]
  · intro h1 h2 hq
    simp [resolvePriceIndex, h1, h2, safeFloatOpt, safe_float, isNoneV, pdIsNA,
      isPyNumber, rvIsNaN, rvIsInf, pyFloatCast, Except.map, priceOrZero,
      pyFloatTruthy, hq]
  · intro h1 h2 h3 hlast hq
    rcases h2 with h2 | h2 <;>
      simp [resolvePriceIndex, h1, h2, h3, hlast, safeFloatOpt, safe_float,
        isNoneV, pdIsNA, isPyNumber, rvIsNaN, rvIsInf, pyFloatCast, Except.map,
        priceOrZero, pyFloatTruthy, hq]
  · intro h1 h3 hlast hq
    simp [resolvePriceStock, h1, h3, hlast, safeFloatOpt, safe_float, isNoneV,
      pdIsNA, isPyNumber, rvIsNaN, rvIsInf, pyFloatCast, Except.map,
      priceOrZero, pyFloatTruthy, hq]
  · intro h1 h2
    simp [resolvePriceStock, h1, h2, safeFloatOpt, priceOrZero, Except.map]

/-- Witness for C6: a last daily close of 42 is resolved as the price 42
by the two-step `stock-options.py` chain (whose earlier lookup faults) and
by the three-step `index.py` chain (earlier lookups fault or come back
absent); and when every lookup of a ticker faults, both chains resolve
the default price 0. -/
theorem C6_witness :
    resolvePriceStock ⟨.error (), fun _ => .error (), .error (), .error (),
      .ok [RawValue.float 42]⟩ = .ok (.finite 42) ∧
    resolvePriceIndex ⟨.error (), fun _ => .error (), .error (),
      .ok Option.none, .ok [RawValue.float 42]⟩ = .ok (.finite 42) ∧
    resolvePriceIndex ⟨.error (), fun _ => .error (), .error (), .error (),
      .error ()⟩ = .ok (.finite 0) ∧
    resolvePriceStock ⟨.error (), fun _ => .error (), .error (), .error (),
      .error ()⟩ = .ok (.finite 0) :=
  ⟨(C6_price_chain
      ⟨.error (), fun _ => .error (), .error (), .error (),
       .ok [RawValue.float 42]⟩
      (.error ()) (fun _ => Option.none) [RawValue.float 42] 42).2.2.2.2.2.1
      rfl rfl rfl (by decide),
   (C6_price_chain
      ⟨.error (), fun _ => .error (), .error (), .ok Option.none,
       .ok [RawValue.float 42]⟩
      (.error ()) (fun _ => Option.none) [RawValue.float 42] 42).2.2.2.2.1
      rfl (Or.inr rfl) rfl rfl (by decide),
   (C6_price_chain
      ⟨.error (), fun _ => .error (), .error (), .error (), .error ()⟩
      (.error ()) (fun _ => Option.none) [] 1).2.1 rfl rfl rfl⟩

/-! ## Claim C7 -/

/-- Whether a cleaned value is an integer or null (the shape claim C7
asserts for `volume` / `openInterest`). -/
def isIntOrNull : CleanedValue → Bool
  | .int _ => true
  | .none => true
  | _ => false

/-- Claim C7 is false as stated for the `index.py` cleaning routine: it
has no `safe_int` branch, so `volume` falls through to `safe_float` and a
row with `volume = 150` is emitted with the *float* `150.0`, not an
integer. -/
theorem C7_counterexample :
    clean_options_data_index ⟨["volume"], [fun _ => RawValue.int 150]⟩ =
      .ok [[("volume", CleanedValue.float (PyFloat.finite 150))]] ∧
    CleanedValue.float (PyFloat.finite 150) ≠ CleanedValue.int 150 :=
  ⟨rfl, by decide⟩

/-- The `volume` branch of the `stock-options.py` per-field coercion. -/
theorem cleanFieldStock_volume (x : RawValue) :
    cleanFieldStock "volume" x =
      .ok (match safe_int x with | some n => .int n | Option.none => .none) := rfl

/-- The `openInterest` branch of the `stock-options.py` per-field
coercion. -/
theorem cleanFieldStock_openInterest (x : RawValue) :
    cleanFieldStock "openInterest" x =
      .ok (match safe_int x with | some n => .int n | Option.none => .none) := rfl

/-- Claim C7 (amended): in every record emitted by the `stock-options.py`
cleaning routine, `volume` and `openInterest` carry an integer or null,
never a float (the `index.py` variant routes them through safe-float and
emits floats, per the counterexample). -/
theorem C7_volume_openInterest_int (df : DataFrame) (e : String) (out : List Rec)
    (i : ℕ) (rec : Rec) (row : String → RawValue) (k : String) (v : CleanedValue)
    (h : clean_options_data df e = .ok out)
    (h1 : out[i]? = some rec) (h2 : df.rows[i]? = some row)
    (hm : (k, v) ∈ rec) (hk : k = "volume" ∨ k = "openInterest") :
    isIntOrNull v = true := by
  unfold clean_options_data at h
  split at h
  · cases h; simp at h1
  · obtain ⟨-, hcorr⟩ := cleanRowsStock_ok e _ df.rows out h
    obtain ⟨fs, hf, hrec⟩ := hcorr i rec row h1 h2
    subst hrec
    rcases List.mem_cons.mp hm with hh | hh
    · injection hh with hk2 hv
      rcases hk with hk | hk <;> rw [hk] at hk2 <;> exact absurd hk2 (by decide)
    · have hfield := cleanFields_mem cleanFieldStock row _ fs _ _ hf hh
      rcases hk with hk | hk <;> subst hk
      · rw [cleanFieldStock_volume] at hfield
        cases hfield
        cases safe_int (row "volume") <;> rfl
      · rw [cleanFieldStock_openInterest] at hfield
        cases hfield
        cases safe_int (row "openInterest") <;> rfl

/-- Witness for C7: a `volume` of 150 is emitted as the integer 150. -/
theorem C7_witness : isIntOrNull (CleanedValue.int 150) = true :=
  C7_volume_openInterest_int
    ⟨["volume"], [fun _ => RawValue.int 150]⟩ "2024-01-19"
    [[("expirationDate", .str "2024-01-19"), ("volume", .int 150)]]
    0
    [("expirationDate", .str "2024-01-19"), ("volume", .int 150)]
    (fun _ => RawValue.int 150) "volume" (.int 150)
    rfl rfl rfl (by decide) (Or.inl rfl)

/-! ## Claim C8 -/

/-- Claim C8: for every expiration date string, the computed
days-to-expiration is `max(0, whole days between now and the date)` —
hence non-negative, also for past dates — and when the string fails to
parse the day-count is null and the entry's label is the raw string. -/
theorem C8_days_to_expiration (now : ℤ) (s : String) :
    (∀ n, calculate_days_to_expiration now s = some n → 0 ≤ n) ∧
    (strptimeYmd s = Option.none →
      calculate_days_to_expiration now s = Option.none ∧
      (buildExpOption now s).label = s) ∧
    (∀ d, strptimeYmd s = some d →
      calculate_days_to_expiration now s =
        some (max 0 (Int.fdiv (d * 86400 - now) 86400)) ∧
      (buildExpOption now s).daysToExpiration =
        calculate_days_to_expiration now s) := by
  refine ⟨?_, ?_, ?_⟩
  · intro n h
    unfold calculate_days_to_expiration at h
    cases hs : strptimeYmd s with
    | none => rw [hs] at h; cases h
    | some d =>
      rw [hs] at h
      cases h
      exact le_max_left 0 _
  · intro h
    constructor
    · unfold calculate_days_to_expiration
      rw [h]
    · simp [buildExpOption, calculate_days_to_expiration, h]
  · intro d h
    constructor
    · unfold calculate_days_to_expiration
      rw [h]
    · simp [buildExpOption]

/-- Witness for C8: the date `1970-01-05` viewed 100 days later yields a
day-count of 0 (floored, not negative), and the unparseable string
`"junk"` yields a null day-count. -/
theorem C8_witness :
    (0 : ℤ) ≤ 0 ∧ calculate_days_to_expiration 0 "junk" = Option.none :=
  ⟨(C8_days_to_expiration (86400 * 100) "1970-01-05").1 0 (by rfl),
   ((C8_days_to_expiration 0 "junk").2.1 (by rfl)).1⟩

/-! ## Claim C9 -/

/-- Claim C9: a request with no `symbol` query parameter is answered 400
with the error payload, and the response does not depend on the provider
or the clock — no provider call can influence it. -/
theorem C9_missing_symbol (allowed : String) (origin referer : Option String)
    (params : String → Option String) (t t2 : Ticker) (now now2 : ℤ)
    (hauth : is_authorized allowed origin referer = true)
    (hsym : params "symbol" = Option.none) :
    do_GET allowed origin referer params t now =
      ⟨400, .err "Missing symbol parameter"⟩ ∧
    do_GET allowed origin referer params t now =
      do_GET allowed origin referer params t2 now2 := by
  constructor <;> simp [do_GET, hauth, hsym]

/-- Witness for C9: with the default localhost origin configuration and
no query parameters at all, two different providers both receive the
same 400 response. -/
theorem C9_witness :
    do_GET "http://localhost:3000" Option.none Option.none (fun _ => Option.none)
      ⟨.ok ["x"], fun _ => .error (), .error (), .error (), .error ()⟩ 0 =
      ⟨400, .err "Missing symbol parameter"⟩ :=
  (C9_missing_symbol "http://localhost:3000" Option.none Option.none
    (fun _ => Option.none)
    ⟨.ok ["x"], fun _ => .error (), .error (), .error (), .error ()⟩
    ⟨.error (), fun _ => .error (), .error (), .error (), .error ()⟩
    0 5 (by rfl) rfl).1

/-! ## Claim C10 -/

/-- Claim C10 is false as stated: a lookup that resolves the price 0 does
**not** make the handler proceed to the next fallback method — the gates
between methods test `is None`, not truthiness.  With `info` giving price
0 and a fast quote of 7 available, the chain stops at the `info` step and
the response price is 0, not 7 (removing the `info` result shows the fast
quote would have yielded 7). -/
theorem C10_counterexample :
    resolvePriceIndex
      ⟨.error (), fun _ => .error (),
       .ok (fun k => if k = "currentPrice" then some (RawValue.int 0)
                     else if k = "regularMarketPrice" then some (RawValue.int 0)
                     else Option.none),
       .ok (some (.int 7)), .ok [.int 7]⟩ = .ok (.finite 0) ∧
    resolvePriceIndex
      ⟨.error (), fun _ => .error (), .error (), .ok (some (.int 7)),
       .ok [.int 7]⟩ = .ok (.finite 7) :=
  ⟨rfl, rfl⟩

/-- Claim C10 (amended): between methods, a zero-valued resolution stops
the chain like any success (later lookups are not consulted); only within
the primary step does a falsy `currentPrice` field fall through to the
`regularMarketPrice` field.  A resolved price of zero is still normalised
to the default 0 by the final `or 0`, so the response's `currentPrice` is
0 both when every lookup fails and when the price resolves to zero — the
two cases are indistinguishable at the public interface. -/
theorem C10_zero_price (o : Except Unit (List String))
    (ch : String → Except Unit (DataFrame × DataFrame))
    (m : String → Option RawValue)
    (f1 f2 : Except Unit (Option RawValue))
    (h1 h2 : Except Unit (List RawValue)) (v : RawValue) :
    (pyTruthy v = false →
      pyOr (some v) (m "regularMarketPrice") = m "regularMarketPrice") ∧
    (infoOr m = some v → safe_float v = .ok (some (.finite 0)) →
      resolvePriceIndex ⟨o, ch, .ok m, f1, h1⟩ = .ok (.finite 0) ∧
      resolvePriceIndex ⟨o, ch, .ok m, f1, h1⟩ =
        resolvePriceIndex ⟨o, ch, .ok m, f2, h2⟩) ∧
    resolvePriceIndex ⟨o, ch, .error (), .error (), .error ()⟩ =
      .ok (.finite 0) := by
  refine ⟨fun h => by simp [pyOr, h], ?_, rfl⟩
  intro hio hsf
  constructor <;>
    simp [resolvePriceIndex, hio, safeFloatOpt, hsf, priceOrZero, pyFloatTruthy,
      Except.map]

/-- Witness for C10: a provider whose quote dict resolves price 0 yields
response price 0 even though a fast quote of 9 and an empty history are
configured. -/
theorem C10_witness :
    resolvePriceIndex
      ⟨.error (), fun _ => .error (), .ok (fun _ => some (RawValue.int 0)),
       .ok (some (.int 9)), .ok []⟩ = .ok (.finite 0) :=
  ((C10_zero_price (.error ()) (fun _ => .error ())
    (fun _ => some (RawValue.int 0)) (.ok (some (.int 9))) (.error ())
    (.ok []) (.error ()) (.int 0)).2.1 rfl rfl).1
